import Mathlib

/-!
Verification of the transaction core of the Pharmacy-Management-System
frontend: the point-of-sale cart and pricing logic
(frontend/app/(dashboard)/pos/page.tsx) and the purchase-order receive and
status-update handlers (frontend/app/(dashboard)/purchases/page.tsx).
JavaScript numbers are modelled as rationals; the string payloads that the
logic never inspects (names, notes, dates) are either dropped or replaced
by numeric stand-ins.
-/

namespace Pharmacy

/-- A priceable medicine as consumed by the POS page (pos/page.tsx):
only the fields the cart logic reads (`id`, `unit_price`) plus the
displayed stock are kept; name and barcode strings are payload the cart
logic never inspects and are omitted. -/
structure Medicine where
  id : Nat
  unit_price : ℚ
  stock_quantity : Nat
deriving DecidableEq

/-- A cart line, `interface CartItem` (pos/page.tsx lines 16-20):
`medicine_id`, the embedded `medicine` object, `quantity`, `unit_price`,
`discount_percent` and the stored `total_price`. -/
structure CartItem where
  medicine_id : Nat
  medicine : Medicine
  quantity : ℚ
  unit_price : ℚ
  discount_percent : ℚ
  total_price : ℚ
deriving DecidableEq

/-- The `updates : Partial<CartItem>` argument of `updateCartItem`
(pos/page.tsx line 138): every field of `CartItem` may be present or
absent. An absent field leaves the line's field unchanged. -/
structure CartUpdates where
  medicine_id : Option Nat := none
  medicine : Option Medicine := none
  quantity : Option ℚ := none
  unit_price : Option ℚ := none
  discount_percent : Option ℚ := none
  total_price : Option ℚ := none
deriving DecidableEq

/-- The object spread `{ ...item, ...updates }` (pos/page.tsx line 141):
each field supplied by `updates` overrides the line's field. -/
def applyUpdates (item : CartItem) (u : CartUpdates) : CartItem :=
  { medicine_id := u.medicine_id.getD item.medicine_id
    medicine := u.medicine.getD item.medicine
    quantity := u.quantity.getD item.quantity
    unit_price := u.unit_price.getD item.unit_price
    discount_percent := u.discount_percent.getD item.discount_percent
    total_price := u.total_price.getD item.total_price }

/-- The per-line body of the `cart.map` in `updateCartItem` (pos/page.tsx
lines 139-149): merge the updates into the matched line and recompute
`total_price` exactly when the updates supplied `quantity` or
`discount_percent` (the `!== undefined` test on line 143). -/
def updateOne (medicineId : Nat) (u : CartUpdates) (item : CartItem) : CartItem :=
  if item.medicine_id = medicineId then
    let updated := applyUpdates item u
    if u.quantity.isSome || u.discount_percent.isSome then
      { updated with
        total_price := updated.quantity * updated.unit_price * (1 - updated.discount_percent / 100) }
    else updated
  else item

/-- `updateCartItem` (pos/page.tsx lines 138-150): `setCart(cart.map(...))`. -/
def updateCartItem (cart : List CartItem) (medicineId : Nat) (u : CartUpdates) : List CartItem :=
  cart.map (updateOne medicineId u)

/-- The incremented line in the existing-item branch of `addToCart`
(pos/page.tsx lines 111-119): quantity + 1 and the recomputed
`total_price = (quantity + 1) * unit_price * (1 - discount_percent / 100)`. -/
def incrementLine (m : Medicine) (item : CartItem) : CartItem :=
  if item.medicine_id = m.id then
    { item with
      quantity := item.quantity + 1
      total_price := (item.quantity + 1) * item.unit_price * (1 - item.discount_percent / 100) }
  else item

/-- The fresh line of the new-item branch of `addToCart` (pos/page.tsx
lines 122-129): quantity 1, zero line discount, `total_price` equal to the
unit price. -/
def newCartItem (m : Medicine) : CartItem :=
  { medicine_id := m.id
    medicine := m
    quantity := 1
    unit_price := m.unit_price
    discount_percent := 0
    total_price := m.unit_price }

/-- `addToCart` (pos/page.tsx lines 106-135): if `cart.find` locates a line
with the same `medicine_id` the whole cart is mapped through the increment,
otherwise the fresh line is appended. -/
def addToCart (cart : List CartItem) (m : Medicine) : List CartItem :=
  if cart.any (fun item => item.medicine_id == m.id) then cart.map (incrementLine m)
  else cart ++ [newCartItem m]

/-- `removeFromCart` (pos/page.tsx lines 153-155):
`setCart(cart.filter(item => item.medicine_id !== medicineId))`. -/
def removeFromCart (cart : List CartItem) (medicineId : Nat) : List CartItem :=
  cart.filter (fun item => item.medicine_id != medicineId)

/-- The quantity passed by the decrement button (pos/page.tsx line 305):
`Math.max(1, item.quantity - 1)`. -/
def decrementQuantity (q : ℚ) : ℚ := max 1 (q - 1)

/-- Sample medicine used to instantiate theorems on concrete inputs. -/
def medA : Medicine := { id := 1, unit_price := 5, stock_quantity := 100 }

/-- Second sample medicine with a distinct id. -/
def medB : Medicine := { id := 2, unit_price := 7, stock_quantity := 50 }

/-- Sample cart line for `medA` with quantity 2 and stored total 10. -/
def lineA : CartItem :=
  { medicine_id := 1, medicine := medA, quantity := 2, unit_price := 5
    discount_percent := 0, total_price := 10 }

/-- Sample cart line for `medB` with quantity 1 and stored total 7. -/
def lineB : CartItem :=
  { medicine_id := 2, medicine := medB, quantity := 1, unit_price := 7
    discount_percent := 0, total_price := 7 }

/-- The payment method selection (pos/page.tsx lines 22-26), default
`cash`. -/
inductive PaymentMethod
  | cash
  | card
  | mobile
deriving DecidableEq

/-- The POS page state the transaction core reads and writes
(pos/page.tsx lines 35-44): the cart, the cart-level discount percent, the
selected customer, the payment method, the in-flight `processing` flag,
the `success` flag and the last receipt number. The search strings and
search-result lists are display-only and omitted; the customer id is the
parsed numeric id (empty string = `none`), and the receipt number string
is replaced by a numeric stand-in. -/
structure POSState where
  cart : List CartItem
  discount : ℚ
  customerId : Option Nat
  paymentMethod : PaymentMethod
  processing : Bool
  success : Bool
  receiptNumber : Nat
deriving DecidableEq

/-- The initial POS state (pos/page.tsx lines 35-44): empty cart, zero
discount, no customer, cash payment, nothing in flight. -/
def initialState : POSState :=
  { cart := [], discount := 0, customerId := none, paymentMethod := .cash
    processing := false, success := false, receiptNumber := 0 }

/-- `clearCart` (pos/page.tsx lines 158-165): drops all lines and resets
discount, customer, payment method and the success flag. -/
def clearCart (st : POSState) : POSState :=
  { st with cart := [], discount := 0, customerId := none, paymentMethod := .cash
            success := false }

/-- The cart mutations the POS page can perform: adding a medicine,
updating a line, removing a line, clearing the cart, and changing the
cart-level discount (the discount input, pos/page.tsx line 410). -/
inductive CartOp
  | add (m : Medicine)
  | update (medicineId : Nat) (u : CartUpdates)
  | remove (medicineId : Nat)
  | clear
  | setDiscount (d : ℚ)
deriving DecidableEq

/-- Effect of one cart operation on the POS state. -/
def applyOp (st : POSState) (op : CartOp) : POSState :=
  match op with
  | .add m => { st with cart := addToCart st.cart m }
  | .update mid u => { st with cart := updateCartItem st.cart mid u }
  | .remove mid => { st with cart := removeFromCart st.cart mid }
  | .clear => clearCart st
  | .setDiscount d => { st with discount := d }

/-- Effect of a sequence of cart operations, applied left to right. -/
def applyOps (st : POSState) (ops : List CartOp) : POSState :=
  ops.foldl applyOp st

/-- A POS state is reachable when some sequence of cart operations
produces it from the initial state. -/
def Reachable (st : POSState) : Prop :=
  ∃ ops : List CartOp, applyOps initialState ops = st

/-- `subtotal` (pos/page.tsx line 47):
`cart.reduce((sum, item) => sum + item.total_price, 0)`. -/
def subtotal (cart : List CartItem) : ℚ :=
  cart.foldl (fun sum item => sum + item.total_price) 0

/-- The tax policy constant `TAX_PERCENTAGE = 18` (pos/page.tsx line 28). -/
def TAX_PERCENTAGE : ℚ := 18

/-- `discountAmount` (pos/page.tsx line 48): `(subtotal * discount) / 100`. -/
def discountAmount (st : POSState) : ℚ := subtotal st.cart * st.discount / 100

/-- `taxAmount` (pos/page.tsx line 49): `(subtotal * tax) / 100`. -/
def taxAmount (st : POSState) : ℚ := subtotal st.cart * TAX_PERCENTAGE / 100

/-- `grandTotal` (pos/page.tsx line 50):
`subtotal - discountAmount + taxAmount`. -/
def grandTotal (st : POSState) : ℚ := subtotal st.cart - discountAmount st + taxAmount st

/-- A cart operation keeps line identities when it is not an update that
rewrites `medicine_id` (every call site of `updateCartItem` in the source
passes only `quantity`). -/
def opPreservesIdentity : CartOp → Prop
  | .update _ u => u.medicine_id = none
  | _ => True

/-- No two cart lines share a `medicine_id`. -/
def cartKeysNodup (cart : List CartItem) : Prop :=
  (cart.map CartItem.medicine_id).Nodup

/-- The duplicate-key cart state reached by adding `medA` and `medB` and
then updating line 1 with an updates object that rewrites its
`medicine_id` to 2. -/
def dupState : POSState :=
  { cart := [{ medicine_id := 2, medicine := medA, quantity := 1, unit_price := 5
               discount_percent := 0, total_price := 5 },
             { medicine_id := 2, medicine := medB, quantity := 1, unit_price := 7
               discount_percent := 0, total_price := 7 }]
    discount := 0, customerId := none, paymentMethod := .cash
    processing := false, success := false, receiptNumber := 0 }

/-- One line of the sale payload (pos/page.tsx lines 178-182):
`{ medicine_id, quantity, discount_percent }`. -/
structure SaleLine where
  medicine_id : Nat
  quantity : ℚ
  discount_percent : ℚ
deriving DecidableEq

/-- The sale payload `saleData` sent by `processSale` (pos/page.tsx lines
176-187); the constant empty `notes` string is omitted. -/
structure SaleData where
  customer_id : Option Nat
  items : List SaleLine
  discount_amount : ℚ
  tax_amount : ℚ
  payment_method : PaymentMethod
deriving DecidableEq

/-- The payload built from the POS state (pos/page.tsx lines 176-187). -/
def saleData (st : POSState) : SaleData :=
  { customer_id := st.customerId
    items := st.cart.map (fun item => ⟨item.medicine_id, item.quantity, item.discount_percent⟩)
    discount_amount := discountAmount st
    tax_amount := taxAmount st
    payment_method := st.paymentMethod }

/-- What one call of `processSale` does before any response arrives: an
empty cart aborts with an alert, otherwise the payload is posted. -/
inductive SaleOutcome
  | emptyCartAlert
  | submitRequest (data : SaleData)
deriving DecidableEq

/-- `processSale` (pos/page.tsx lines 168-203): the only local guard is
the empty-cart check on line 169; the `processing` flag is set but never
tested inside the function. -/
def processSale (st : POSState) : SaleOutcome :=
  if st.cart = [] then .emptyCartAlert else .submitRequest (saleData st)

/-- `setProcessing(true)` executed before the request (pos/page.tsx
line 174). -/
def processSaleStart (st : POSState) : POSState := { st with processing := true }

/-- The failure path of `processSale` (pos/page.tsx lines 198-202): the
catch block only raises an alert and the finally block resets
`processing`; cart, discount, customer and payment method are untouched. -/
def processSaleOnFailure (st : POSState) : POSState := { st with processing := false }

/-- The alert raised on failure (pos/page.tsx line 199):
`error.response?.data?.detail || 'Sale processing failed'`; the server
detail string is modelled by a numeric code. -/
inductive SaleAlert
  | serverDetail (code : Nat)
  | genericFailure
deriving DecidableEq

/-- Chooses the server-provided detail when present, the generic message
otherwise (pos/page.tsx line 199). -/
def saleFailureAlert (detail : Option Nat) : SaleAlert :=
  match detail with
  | some code => .serverDetail code
  | none => .genericFailure

/-- The `disabled` attribute of the Complete Sale button (pos/page.tsx
line 459): `processing || cart.length === 0`. -/
def completeSaleDisabled (st : POSState) : Bool :=
  st.processing || st.cart.isEmpty

/-- A POS state with one in-flight submission and a non-empty cart, used
to exercise `processSale` re-entry. -/
def busyState : POSState :=
  { cart := [lineA], discount := 0, customerId := none, paymentMethod := .cash
    processing := true, success := false, receiptNumber := 0 }

/-- Purchase-order status (purchases/page.tsx line 12); the source's
`partial` status is spelled `partialStatus` because `partial` is a Lean
keyword. -/
inductive OrderStatus
  | pending
  | ordered
  | received
  | cancelled
  | partialStatus
deriving DecidableEq

/-- One purchase-order line (purchases/page.tsx lines 31-44): the embedded
medicine object and display strings are omitted; `received_quantity` is
null until a receive action sets it. -/
structure PurchaseItem where
  id : Nat
  medicine_id : Nat
  quantity : Nat
  unit_cost : ℚ
  received_quantity : Option Nat := none
deriving DecidableEq

/-- A purchase order (purchases/page.tsx lines 14-45), restricted to the
fields the receive and status-update logic reads; dates and display
strings are omitted. -/
structure Purchase where
  id : Nat
  supplier_id : Nat
  status : OrderStatus
  items : List PurchaseItem
  total_amount : ℚ
deriving DecidableEq

/-- The `receiveQuantities` record (purchases/page.tsx line 75),
`Record<string, number>` keyed by the item id, as an association list.
Values are integers because the input handler stores
`parseInt(value) || 0`. -/
def ReceiveQuantities : Type := List (Nat × Int)

/-- What one call of `handleReceivePurchase` does before any response
arrives. -/
inductive ReceiveOutcome
  | noSelection
  | submitRequest (orderId : Nat) (received_quantities : List (Nat × Int))
deriving DecidableEq

/-- `handleReceivePurchase` (purchases/page.tsx lines 317-331): returns if
no purchase is selected, otherwise it posts the quantities map as-is — no
local validation, no local status computation. -/
def handleReceivePurchase (selected : Option Purchase)
    (receiveQuantities : List (Nat × Int)) : ReceiveOutcome :=
  match selected with
  | none => .noSelection
  | some p => .submitRequest p.id receiveQuantities

/-- `prepareReceivePurchase` (purchases/page.tsx lines 305-315): the
receive dialog defaults every item's received quantity to its full ordered
quantity. -/
def prepareReceiveQuantities (p : Purchase) : List (Nat × Int) :=
  p.items.map (fun item => (item.id, (item.quantity : Int)))

/-- The received-quantity input handler (purchases/page.tsx lines 896-900):
`parseInt(e.target.value) || 0`; a non-numeric value (`none`) becomes 0. -/
def receiveInputValue (parsed : Option Int) : Int := parsed.getD 0

/-- Looks up an item's entry in the quantities map. -/
def lookupQty (qs : List (Nat × Int)) (key : Nat) : Option Int :=
  (qs.find? (fun entry => entry.1 == key)).map Prod.snd

/-- The range validation the specification prescribes for a receive action
(`0 ≤ receivedQuantities[item] ≤ item.quantity` for every item). The
source performs no such check; the predicate is defined only to state what
the handler does on inputs that violate it. -/
def validRange (p : Purchase) (qs : List (Nat × Int)) : Bool :=
  p.items.all (fun item =>
    match lookupQty qs item.id with
    | some v => decide (0 ≤ v ∧ v ≤ (item.quantity : Int))
    | none => true)

/-- What one call of `handleUpdateStatus` does before any response
arrives. -/
inductive UpdateStatusOutcome
  | notConfirmed
  | submitRequest (orderId : Nat) (status : OrderStatus)
deriving DecidableEq

/-- `handleUpdateStatus` (purchases/page.tsx lines 333-343): asks for user
confirmation, then posts the requested status — the order's current status
is never consulted and no transition rule is checked. -/
def handleUpdateStatus (confirmed : Bool) (purchaseId : Nat)
    (status : OrderStatus) : UpdateStatusOutcome :=
  if confirmed then .submitRequest purchaseId status else .notConfirmed

/-- The row-action guard (purchases/page.tsx line 550): the Receive and
Cancel buttons are rendered only when
`status === 'pending' || status === 'ordered'`. -/
def showReceiveAndCancelActions (p : Purchase) : Bool :=
  p.status == .pending || p.status == .ordered

/-- Sample purchase order with items of ordered quantities 10 and 5
(the specification's Scenario B shape). -/
def purchaseB : Purchase :=
  { id := 2, supplier_id := 1, status := .pending
    items := [{ id := 1, medicine_id := 101, quantity := 10, unit_cost := 3 },
              { id := 2, medicine_id := 102, quantity := 5, unit_cost := 2 }]
    total_amount := 40 }

/-- Sample purchase order already in the terminal `received` status. -/
def purchaseReceived : Purchase :=
  { id := 7, supplier_id := 1, status := .received, items := [], total_amount := 0 }

/-- C6: when a line with the same medicine id is already in the cart,
`addToCart` maps the cart through the per-line increment (quantity + 1,
recomputed total, no appended duplicate, length preserved); adding the same
medicine twice to an empty cart yields one line with quantity 2 and total
twice the unit price. -/
theorem addToCart_merges_existing (cart : List CartItem) (m : Medicine)
    (h : cart.any (fun item => item.medicine_id == m.id) = true) :
    addToCart cart m = cart.map (incrementLine m) ∧
    (addToCart cart m).length = cart.length ∧
    addToCart (addToCart [] m) m =
      [{ medicine_id := m.id, medicine := m, quantity := 2, unit_price := m.unit_price
         discount_percent := 0, total_price := 2 * m.unit_price }] := by
  refine ⟨by simp [addToCart, h], by simp [addToCart, h], ?_⟩
  show addToCart ([] ++ [newCartItem m]) m = _
  have hany : ([] ++ [newCartItem m]).any (fun item => item.medicine_id == m.id) = true := by
    simp [newCartItem]
  rw [addToCart, if_pos hany]
  simp only [List.nil_append, List.map_cons, List.map_nil, incrementLine, newCartItem, if_pos rfl]
  norm_num

/-- Witness for C6: `addToCart` applied to a one-line cart that already
contains `medA`. -/
theorem addToCart_merges_existing_witness :
    addToCart [lineA] medA = [lineA].map (incrementLine medA) ∧
    (addToCart [lineA] medA).length = [lineA].length ∧
    addToCart (addToCart [] medA) medA =
      [{ medicine_id := medA.id, medicine := medA, quantity := 2, unit_price := medA.unit_price
         discount_percent := 0, total_price := 2 * medA.unit_price }] :=
  addToCart_merges_existing [lineA] medA (by decide)

/-- C8: removing an id again is a no-op (filter is idempotent), and when
no line carries the id the cart is returned exactly unchanged. -/
theorem removeFromCart_idempotent (cart : List CartItem) (medicineId : Nat) :
    removeFromCart (removeFromCart cart medicineId) medicineId = removeFromCart cart medicineId ∧
    ((∀ item ∈ cart, item.medicine_id ≠ medicineId) → removeFromCart cart medicineId = cart) := by
  simp only [removeFromCart]
  constructor
  · simp [List.filter_filter]
  · intro h
    apply List.filter_eq_self.mpr
    intro a ha
    simpa using h a ha

/-- Witness for C8: removing the absent id 99 from the one-line cart
`[lineA]` leaves it unchanged, and removing twice equals removing once. -/
theorem removeFromCart_idempotent_witness :
    removeFromCart (removeFromCart [lineA] 99) 99 = removeFromCart [lineA] 99 ∧
    removeFromCart [lineA] 99 = [lineA] :=
  ⟨(removeFromCart_idempotent [lineA] 99).1,
   (removeFromCart_idempotent [lineA] 99).2 (by decide)⟩

/-- C5 counterexample: `updateCartItem` neither clamps nor deletes.
Requesting quantity 0 stores quantity 0 (the line is not removed), and
requesting a 150 percent line discount stores 150 and drives the stored
total negative. -/
theorem updateCartItem_no_clamping :
    updateCartItem [lineA] 1 { quantity := some 0 } =
      [{ medicine_id := 1, medicine := medA, quantity := 0, unit_price := 5
         discount_percent := 0, total_price := 0 }] ∧
    updateCartItem [lineA] 1 { discount_percent := some 150 } =
      [{ medicine_id := 1, medicine := medA, quantity := 2, unit_price := 5
         discount_percent := 150, total_price := -5 }] := by
  refine ⟨?_, ?_⟩
  · simp [updateCartItem, updateOne, applyUpdates, lineA, medA]
  · simp [updateCartItem, updateOne, applyUpdates, lineA, medA]
    norm_num

/-- C5 amended: `updateCartItem` stores the supplied quantity and
discount verbatim on the matched line and never changes the number of
lines; the only clamping in the source is in the caller — the quantity
decrement button passes `Math.max(1, quantity - 1)`, which is always ≥ 1. -/
theorem updateCartItem_stores_as_given (cart : List CartItem) (mid : Nat)
    (u : CartUpdates) (item : CartItem) (q d : ℚ) :
    (updateCartItem cart mid u).length = cart.length ∧
    (updateOne mid { quantity := some q } item).quantity =
      (if item.medicine_id = mid then q else item.quantity) ∧
    (updateOne mid { discount_percent := some d } item).discount_percent =
      (if item.medicine_id = mid then d else item.discount_percent) ∧
    1 ≤ decrementQuantity q := by
  refine ⟨by simp [updateCartItem], ?_, ?_, le_max_left 1 (q - 1)⟩ <;>
    by_cases h : item.medicine_id = mid <;> simp [updateOne, applyUpdates, h]

/-- C10 counterexample: an updates object supplying neither `quantity` nor
`discount_percent` does not leave `total_price` as it was — the object
spread writes a directly supplied `total_price` onto the matched line. -/
theorem updateCartItem_total_price_overwritten :
    updateCartItem [lineA] 1 { total_price := some 999 } =
      [{ medicine_id := 1, medicine := medA, quantity := 2, unit_price := 5
         discount_percent := 0, total_price := 999 }] ∧
    lineA.total_price = 10 := by
  constructor
  · simp [updateCartItem, updateOne, applyUpdates, lineA, medA]
  · rfl

/-- C10 amended: `updateCartItem` preserves length and order, leaves every
line whose `medicine_id` differs from the argument unchanged in place, and
on the matched line recomputes `total_price` from the merged quantity,
unit price and discount exactly when the updates supplied `quantity` or
`discount_percent`; when it supplied neither, `total_price` is the merged
value — the directly supplied `total_price` if present, the old value
otherwise. -/
theorem updateCartItem_frame (cart : List CartItem) (mid : Nat) (u : CartUpdates) :
    (updateCartItem cart mid u).length = cart.length ∧
    (∀ k : Nat, ∀ item : CartItem, cart[k]? = some item → item.medicine_id ≠ mid →
      (updateCartItem cart mid u)[k]? = some item) ∧
    (∀ item : CartItem, item.medicine_id = mid →
      (u.quantity.isSome || u.discount_percent.isSome) = true →
      (updateOne mid u item).total_price =
        (applyUpdates item u).quantity * (applyUpdates item u).unit_price *
          (1 - (applyUpdates item u).discount_percent / 100)) ∧
    (∀ item : CartItem, item.medicine_id = mid →
      u.quantity = none → u.discount_percent = none →
      (updateOne mid u item).total_price = u.total_price.getD item.total_price) := by
  refine ⟨by simp [updateCartItem], ?_, ?_, ?_⟩
  · intro k item hk hne
    simp only [updateCartItem, List.getElem?_map, hk, Option.map_some]
    simp [updateOne, hne]
  · intro item hm hb
    simp [updateOne, hm, hb]
  · intro item hm hq hd
    simp [updateOne, applyUpdates, hm, hq, hd]

/-- Witness for C10 amended: the frame theorem applied to the two-line cart
`[lineA, lineB]` with an update to medicine id 1 — line `lineB` at index 1
is untouched, and the matched line's total is recomputed from the merged
fields. -/
theorem updateCartItem_frame_witness :
    (updateCartItem [lineA, lineB] 1 { quantity := some 3 }).length = 2 ∧
    (updateCartItem [lineA, lineB] 1 { quantity := some 3 })[1]? = some lineB ∧
    (updateOne 1 { quantity := some 3 } lineA).total_price =
      (applyUpdates lineA { quantity := some 3 }).quantity *
        (applyUpdates lineA { quantity := some 3 }).unit_price *
        (1 - (applyUpdates lineA { quantity := some 3 }).discount_percent / 100) :=
  ⟨(updateCartItem_frame [lineA, lineB] 1 { quantity := some 3 }).1,
   (updateCartItem_frame [lineA, lineB] 1 { quantity := some 3 }).2.1 1 lineB rfl (by decide),
   (updateCartItem_frame [lineA, lineB] 1 { quantity := some 3 }).2.2.1 lineA rfl (by decide)⟩

/-- The source's `reduce((sum, item) => sum + item.total_price, 0)` fold
equals the accumulator plus the sum of the line totals. -/
theorem foldl_total_price (l : List CartItem) (a : ℚ) :
    l.foldl (fun sum item => sum + item.total_price) a =
      a + (l.map CartItem.total_price).sum := by
  induction l generalizing a with
  | nil => simp
  | cons x xs ih => simp [ih, add_assoc]

/-- C1: in every reachable POS state the derived totals satisfy the cart
invariant — `subtotal` is the sum of the lines' `total_price`,
`discountAmount = subtotal * discount / 100`,
`taxAmount = subtotal * 18 / 100`, and
`grandTotal = subtotal - discountAmount + taxAmount`. (The page derives
all four on every render, so the equations hold after every mutation.) -/
theorem cart_totals_invariant (st : POSState) (_reach : Reachable st) :
    subtotal st.cart = (st.cart.map CartItem.total_price).sum ∧
    discountAmount st = subtotal st.cart * st.discount / 100 ∧
    taxAmount st = subtotal st.cart * 18 / 100 ∧
    grandTotal st = subtotal st.cart - discountAmount st + taxAmount st := by
  refine ⟨?_, rfl, rfl, rfl⟩
  simpa [subtotal] using foldl_total_price st.cart 0

/-- Witness for C1: the invariant instantiated at the state reached by
adding `medA` and setting a 5 percent cart discount. -/
theorem cart_totals_invariant_witness :
    subtotal (applyOps initialState [.add medA, .setDiscount 5]).cart =
      ((applyOps initialState [.add medA, .setDiscount 5]).cart.map CartItem.total_price).sum ∧
    discountAmount (applyOps initialState [.add medA, .setDiscount 5]) =
      subtotal (applyOps initialState [.add medA, .setDiscount 5]).cart *
        (applyOps initialState [.add medA, .setDiscount 5]).discount / 100 ∧
    taxAmount (applyOps initialState [.add medA, .setDiscount 5]) =
      subtotal (applyOps initialState [.add medA, .setDiscount 5]).cart * 18 / 100 ∧
    grandTotal (applyOps initialState [.add medA, .setDiscount 5]) =
      subtotal (applyOps initialState [.add medA, .setDiscount 5]).cart -
        discountAmount (applyOps initialState [.add medA, .setDiscount 5]) +
        taxAmount (applyOps initialState [.add medA, .setDiscount 5]) :=
  cart_totals_invariant _ ⟨[.add medA, .setDiscount 5], rfl⟩

/-- `incrementLine` never changes a line's `medicine_id`. -/
theorem incrementLine_key (m : Medicine) (item : CartItem) :
    (incrementLine m item).medicine_id = item.medicine_id := by
  unfold incrementLine
  split <;> rfl

/-- `updateOne` keeps a line's `medicine_id` when the updates object does
not supply one. -/
theorem updateOne_key (mid : Nat) (u : CartUpdates) (hu : u.medicine_id = none)
    (item : CartItem) : (updateOne mid u item).medicine_id = item.medicine_id := by
  simp only [updateOne, applyUpdates, hu]
  split_ifs <;> simp

/-- `addToCart` preserves distinctness of the cart's medicine ids: the
merge branch rewrites no id and the append branch adds an id that the
`find` test showed absent. -/
theorem keys_addToCart (cart : List CartItem) (m : Medicine) (h : cartKeysNodup cart) :
    cartKeysNodup (addToCart cart m) := by
  unfold addToCart
  by_cases hany : cart.any (fun item => item.medicine_id == m.id) = true
  · rw [if_pos hany]
    unfold cartKeysNodup at h ⊢
    have hmap : List.map (CartItem.medicine_id ∘ incrementLine m) cart =
        List.map CartItem.medicine_id cart :=
      List.map_congr_left (fun item _ => incrementLine_key m item)
    rw [List.map_map, hmap]
    exact h
  · rw [if_neg hany]
    unfold cartKeysNodup at h ⊢
    rw [List.map_append, List.nodup_append]
    refine ⟨h, by simp, ?_⟩
    intro a ha hb
    simp only [List.map_cons, List.map_nil, List.mem_singleton] at hb
    rcases List.mem_map.mp ha with ⟨item, hitem, rfl⟩
    rw [List.any_eq_true] at hany
    push_neg at hany
    exact absurd (by simpa [newCartItem] using hb) (by simpa using hany item hitem)

/-- `updateCartItem` preserves distinctness of the medicine ids when the
updates object does not rewrite `medicine_id`. -/
theorem keys_updateCartItem (cart : List CartItem) (mid : Nat) (u : CartUpdates)
    (hu : u.medicine_id = none) (h : cartKeysNodup cart) :
    cartKeysNodup (updateCartItem cart mid u) := by
  unfold cartKeysNodup at h ⊢
  unfold updateCartItem
  have hmap : List.map (CartItem.medicine_id ∘ updateOne mid u) cart =
      List.map CartItem.medicine_id cart :=
    List.map_congr_left (fun item _ => updateOne_key mid u hu item)
  rw [List.map_map, hmap]
  exact h

/-- Removing a line preserves distinctness of the medicine ids. -/
theorem keys_removeFromCart (cart : List CartItem) (mid : Nat) (h : cartKeysNodup cart) :
    cartKeysNodup (removeFromCart cart mid) := by
  unfold cartKeysNodup at h ⊢
  unfold removeFromCart
  exact h.sublist ((List.filter_sublist _).map CartItem.medicine_id)

/-- One identity-preserving cart operation keeps the medicine ids
distinct. -/
theorem applyOp_keys (st : POSState) (op : CartOp) (hop : opPreservesIdentity op)
    (h : cartKeysNodup st.cart) : cartKeysNodup (applyOp st op).cart := by
  cases op with
  | add m => exact keys_addToCart st.cart m h
  | update mid u => exact keys_updateCartItem st.cart mid u hop h
  | remove mid => exact keys_removeFromCart st.cart mid h
  | clear => simp [applyOp, clearCart, cartKeysNodup]
  | setDiscount d => exact h

/-- C9 counterexample: the duplicate-key state `dupState` is reachable from
the empty cart by two adds followed by an `updateCartItem` whose
`Partial<CartItem>` updates object rewrites the line's `medicine_id`, and
its two lines share medicine id 2. -/
theorem cart_duplicate_key_reachable :
    Reachable dupState ∧ ¬ cartKeysNodup dupState.cart :=
  ⟨⟨[.add medA, .add medB, .update 1 { medicine_id := some 2 }], by decide⟩,
   by unfold cartKeysNodup; decide⟩

/-- C9 amended: in every state reachable from the empty cart by cart
operations whose updates never rewrite `medicine_id` (all call sites in
the source pass only `quantity`), no two cart lines share a
`medicine_id`. -/
theorem cart_keys_nodup_reachable (ops : List CartOp)
    (h : ∀ op ∈ ops, opPreservesIdentity op) :
    cartKeysNodup (applyOps initialState ops).cart := by
  suffices H : ∀ (l : List CartOp) (st : POSState), cartKeysNodup st.cart →
      (∀ op ∈ l, opPreservesIdentity op) → cartKeysNodup (applyOps st l).cart from
    H ops initialState (by simp [initialState, cartKeysNodup]) h
  intro l
  induction l with
  | nil => intro st hst _; exact hst
  | cons op rest ih =>
    intro st hst hl
    simp only [applyOps, List.foldl_cons]
    exact ih (applyOp st op) (applyOp_keys st op (hl op (by simp)) hst)
      (fun o ho => hl o (by simp [ho]))

/-- Witness for C9 amended: a concrete identity-preserving run — add two
medicines, then update the first line's quantity — ends with distinct
medicine ids. -/
theorem cart_keys_nodup_reachable_witness :
    cartKeysNodup
      (applyOps initialState [.add medA, .add medB, .update 1 { quantity := some 3 }]).cart :=
  cart_keys_nodup_reachable _ (by
    intro op hop
    simp only [List.mem_cons, List.not_mem_nil, or_false] at hop
    rcases hop with rfl | rfl | rfl <;> trivial)

/-- C2 counterexample: on the Scenario B order (quantities 10 and 5) an
all-zero quantities map is submitted to the backend — the handler computes
no local status and does not reject the no-op receive. -/
theorem receive_all_zero_submitted :
    (([(1, 0), (2, 0)] : List (Nat × Int)).all (fun entry => entry.2 == 0)) = true ∧
    handleReceivePurchase (some purchaseB) [(1, 0), (2, 0)] =
      .submitRequest 2 [(1, 0), (2, 0)] :=
  ⟨by decide, by decide⟩

/-- C2 amended: `handleReceivePurchase` computes no local status and
performs no validation — for any selected order it submits the quantities
map unchanged (the backend determines the resulting status), it does
nothing when no order is selected, and the receive dialog pre-fills every
item's received quantity with its full ordered quantity. -/
theorem receive_submits_unvalidated (p : Purchase) (qs : List (Nat × Int)) :
    handleReceivePurchase (some p) qs = .submitRequest p.id qs ∧
    handleReceivePurchase none qs = .noSelection ∧
    prepareReceiveQuantities p = p.items.map (fun item => (item.id, (item.quantity : Int))) :=
  ⟨rfl, rfl, rfl⟩

/-- C4 counterexample: a received quantity of 999 against an ordered
quantity of 10 violates the prescribed range, yet the handler submits the
map to the backend instead of raising a local validation error. -/
theorem receive_out_of_range_submitted :
    validRange purchaseB [(1, 999), (2, 5)] = false ∧
    handleReceivePurchase (some purchaseB) [(1, 999), (2, 5)] =
      .submitRequest 2 [(1, 999), (2, 5)] :=
  ⟨by decide, by decide⟩

/-- C4 amended: `handleReceivePurchase` performs no range validation — a
quantities map violating `0 ≤ q ≤ item.quantity` is submitted all the
same; the only client-side treatment of the input is the HTML min/max
attributes on the number field and the coercion of a non-numeric value to
0 by the change handler. -/
theorem receive_no_local_range_check (p : Purchase) (qs : List (Nat × Int))
    (_h : validRange p qs = false) :
    handleReceivePurchase (some p) qs = .submitRequest p.id qs ∧
    receiveInputValue none = 0 :=
  ⟨rfl, rfl⟩

/-- Witness for C4 amended: the out-of-range map `[(1, 999), (2, 5)]`
against the Scenario B order is submitted. -/
theorem receive_no_local_range_check_witness :
    handleReceivePurchase (some purchaseB) [(1, 999), (2, 5)] =
      .submitRequest purchaseB.id [(1, 999), (2, 5)] ∧
    receiveInputValue none = 0 :=
  receive_no_local_range_check purchaseB [(1, 999), (2, 5)] (by decide)

/-- C3 counterexample: `handleUpdateStatus` applied to an order whose
status is `received`, requesting `pending`, issues the network request
(given the user confirmation) instead of failing with a local
InvalidTransition. -/
theorem updateStatus_received_to_pending_submitted :
    purchaseReceived.status = .received ∧
    handleUpdateStatus true purchaseReceived.id .pending =
      .submitRequest purchaseReceived.id .pending :=
  ⟨rfl, rfl⟩

/-- C3 amended: `handleUpdateStatus` enforces no transition rule — with
user confirmation it submits any requested status for any order, and
without confirmation it does nothing; the only restriction lives in the
UI, which renders the Receive and Cancel actions exactly when the order's
status is `pending` or `ordered`. -/
theorem updateStatus_no_local_transition_check (p : Purchase) (target : OrderStatus) :
    handleUpdateStatus true p.id target = .submitRequest p.id target ∧
    handleUpdateStatus false p.id target = .notConfirmed ∧
    (showReceiveAndCancelActions p = true ↔ (p.status = .pending ∨ p.status = .ordered)) := by
  refine ⟨rfl, rfl, ?_⟩
  rcases p with ⟨pid, sup, status, items, amt⟩
  cases status <;> simp [showReceiveAndCancelActions]

/-- C7 counterexample: in a state with a submission already in flight
(`processing = true`) and a non-empty cart, a second call of `processSale`
posts another request — it is not rejected locally. -/
theorem processSale_reentry_submits :
    busyState.processing = true ∧
    processSale busyState = .submitRequest (saleData busyState) :=
  ⟨rfl, by simp [processSale, busyState]⟩

/-- C7 amended: `processSale` itself never tests the in-flight flag — with
a non-empty cart it always posts the payload, and re-entry is prevented
only by the UI disabling the Complete Sale button while `processing` is
true; on failure the server-provided detail is surfaced (with a generic
fallback) and cart, discount, customer and payment method are left
unchanged. -/
theorem processSale_no_inflight_guard (st : POSState) (detail : Nat)
    (hproc : st.processing = true) (hcart : st.cart ≠ []) :
    completeSaleDisabled st = true ∧
    processSale st = .submitRequest (saleData st) ∧
    (processSaleOnFailure st).cart = st.cart ∧
    (processSaleOnFailure st).discount = st.discount ∧
    (processSaleOnFailure st).customerId = st.customerId ∧
    (processSaleOnFailure st).paymentMethod = st.paymentMethod ∧
    saleFailureAlert (some detail) = .serverDetail detail := by
  refine ⟨?_, ?_, rfl, rfl, rfl, rfl, rfl⟩
  · simp [completeSaleDisabled, hproc]
  · simp [processSale, hcart]

/-- Witness for C7 amended: the guard-free behaviour at the concrete busy
state with server detail 42. -/
theorem processSale_no_inflight_guard_witness :
    completeSaleDisabled busyState = true ∧
    processSale busyState = .submitRequest (saleData busyState) ∧
    (processSaleOnFailure busyState).cart = busyState.cart ∧
    (processSaleOnFailure busyState).discount = busyState.discount ∧
    (processSaleOnFailure busyState).customerId = busyState.customerId ∧
    (processSaleOnFailure busyState).paymentMethod = busyState.paymentMethod ∧
    saleFailureAlert (some 42) = .serverDetail 42 :=
  processSale_no_inflight_guard busyState 42 rfl (by decide)

end Pharmacy
